import Mathlib

/-!
# Medical Claim Evidence Resolution Pipeline — formal model

A shallow embedding of the claim-resolution core of the repository
(`medical_reviewer.py` and `pubmed_service.py`) together with proofs of
the specified properties.

Modelling conventions:
* Python floats are rationals (`ℚ`), Python ints are `ℤ`/`ℕ`.
* Python strings are `String`; the enumerated statuses and severities are
  kept as the raw strings the code compares against.
* The wall clock (`datetime.now().year`) is passed explicitly as a
  `current_year` parameter.
* Network calls and JSON decoding are oracles passed in as explicit
  environments; fallible code returns `Except`.
-/

namespace MedReview

/-- Python exception kinds that can escape the functions modelled here. -/
inductive PyError where
  | typeError
  | attributeError
  | keyError
  deriving DecidableEq, Repr

/-- An article record as produced by `PubMedService._parse_pubmed_xml`:
every field is a string (or list of strings) pulled from the XML; `year`
is kept as the raw string and parsed with Python `int` semantics where
the scorer needs it. -/
structure Article where
  pmid : String
  title : String
  authors : List String
  journal : String
  year : String
  abstract : String
  deriving DecidableEq, Repr

/-- The `pubmed_reference` record attached by
`MedicalReviewer._process_pubmed_queries` (lines 227-234). -/
structure PubmedReference where
  pmid : String
  title : String
  authors : List String
  journal : String
  year : String
  confidence : ℚ
  deriving DecidableEq, Repr

/-- A claim record, the fields of the claim dicts that the resolver and
aggregator read or write.  `backup_reference` is an opaque payload: the
resolver never reads or writes it, which the frame theorems make
precise. -/
structure Claim where
  id : String
  claim_text : String
  claim_type : String
  location : String
  evidence_status : String
  severity : Option String
  backup_reference : Option String
  pubmed_reference : Option PubmedReference
  issues : List String
  deriving DecidableEq, Repr

/-- One entry of `pubmed_queries_needed`: `{claim_id, query}`.
`claim_id` is optional because the code reads it with `.get`. -/
structure QueryInfo where
  claim_id : Option String
  query : String
  deriving DecidableEq, Repr

/-! ## Relevance scorer (`PubMedService.calculate_relevance_score`) -/

/-- Python `max(a, b)` on numbers (kernel-computable form). -/
def pyMax (a b : ℚ) : ℚ :=
  if a < b then b else a

/-- Python `min(a, b)` on numbers (kernel-computable form). -/
def pyMin (a b : ℚ) : ℚ :=
  if b < a then b else a

theorem pyMax_eq_max (a b : ℚ) : pyMax a b = max a b := by
  simp [pyMax, max_def]
  rcases lt_trichotomy a b with h | h | h
  · simp [h, le_of_lt h]
  · simp [h]
  · simp [not_lt_of_lt h, not_le_of_lt h]

theorem pyMin_eq_min (a b : ℚ) : pyMin a b = min a b := by
  simp [pyMin, min_def]
  rcases lt_trichotomy a b with h | h | h
  · simp [not_lt_of_lt h, le_of_lt h]
  · simp [h]
  · simp [h, not_le_of_lt h]

/-- Python `s.lower().split()` collected into a set:
lowercase, split on whitespace, drop empty fragments, dedupe. -/
def termSet (s : String) : Finset String :=
  ((s.toLower.split Char.isWhitespace).filter (fun t => t ≠ "")).toFinset

/-- Python `int(s)` falling back to `dflt` on `ValueError`
(the `try`/`except ValueError` at `pubmed_service.py:165-168`). -/
def pyInt (s : String) (dflt : ℤ) : ℤ :=
  (s.toInt?).getD dflt

/-- `PubMedService.calculate_relevance_score` (lines 150-171). -/
def calculate_relevance_score (current_year : ℤ) (query : String)
    (article : Article) : ℚ :=
  let query_terms := termSet query
  let title_terms := termSet article.title
  let abstract_terms := termSet article.abstract
  let title_overlap : ℚ :=
    ((query_terms ∩ title_terms).card : ℚ) / (max query_terms.card 1 : ℕ)
  let abstract_overlap : ℚ :=
    ((query_terms ∩ abstract_terms).card : ℚ) / (max query_terms.card 1 : ℕ)
  let score := title_overlap * (6 / 10) + abstract_overlap * (4 / 10)
  let pub_year := pyInt article.year current_year
  let recency_boost : ℚ :=
    pyMax 0 ((((5 : ℤ) - (current_year - pub_year) : ℤ) : ℚ) * (2 / 100))
  pyMin 1 (score + recency_boost)

example :
    calculate_relevance_score 2025 "" ⟨"1", "t", [], "j", "2024", "a"⟩
      = 2 / 25 := by
  with_unfolding_all decide

example :
    calculate_relevance_score 2025 "alpha beta"
      ⟨"1", "Alpha gamma", [], "j", "1900", "beta delta"⟩ = 1 / 2 := by
  with_unfolding_all decide

/-! ## Evidence resolver (`MedicalReviewer._process_pubmed_queries`) -/

/-- The severity update of `_process_pubmed_queries` lines 235-239:
`CRITICAL` becomes `MAJOR`, `MAJOR` becomes `MINOR`, anything else
(including `MINOR` and no severity) is left as it is. -/
def downgradeSeverity : Option String → Option String
  | some "CRITICAL" => some "MAJOR"
  | some "MAJOR" => some "MINOR"
  | s => s

/-- The `pubmed_reference` dict built at lines 227-234 for the first
returned article. -/
def mkPubmedReference (current_year : ℤ) (query : String)
    (best_article : Article) : PubmedReference :=
  { pmid := best_article.pmid
    title := best_article.title
    authors := best_article.authors
    journal := best_article.journal
    year := best_article.year
    confidence := calculate_relevance_score current_year query best_article }

/-- The body of the per-query loop of `_process_pubmed_queries` once a
claim has been found (lines 221-243): search, then either attach the
first article (`best_article = articles[0]`) and step the severity down,
or mark the claim `UNSUBSTANTIATED`/`CRITICAL`. -/
def resolveClaim (search : String → List Article) (current_year : ℤ)
    (query : String) (claim : Claim) : Claim :=
  match search query with
  | [] =>
      { claim with
          evidence_status := "UNSUBSTANTIATED"
          severity := some "CRITICAL" }
  | best_article :: _ =>
      { claim with
          evidence_status := "SUBSTANTIATED_PUBMED"
          pubmed_reference := some (mkPubmedReference current_year query best_article)
          severity := downgradeSeverity claim.severity }

/-- In-place mutation of the first list element whose `id` equals
`cid` (the Python loop at lines 211-215 finds that element and the
claim dict is then mutated through the reference). -/
def updateFirst (f : Claim → Claim) (cid : String) : List Claim → List Claim
  | [] => []
  | c :: cs => if c.id = cid then f c :: cs else c :: updateFirst f cid cs

/-- One iteration of the `for query_info in pubmed_queries` loop
(lines 203-243): skip when the query string is falsy, skip when no claim
carries the id, otherwise resolve the first claim with that id. -/
def applyQueryInfo (search : String → List Article) (current_year : ℤ)
    (claims : List Claim) (query_info : QueryInfo) : List Claim :=
  match query_info.claim_id with
  | none => claims
  | some cid =>
      if query_info.query = "" then claims
      else if (claims.find? (fun c => c.id = cid)).isSome then
        updateFirst (resolveClaim search current_year query_info.query) cid claims
      else claims

/-- `MedicalReviewer._process_pubmed_queries` (lines 198-243), acting on
the claim list of the report.  `search` stands for
`self.pubmed_service.search(query, max_results=5, years=10)`. -/
def process_pubmed_queries (search : String → List Article)
    (current_year : ℤ) (claims : List Claim)
    (pubmed_queries : List QueryInfo) : List Claim :=
  pubmed_queries.foldl (applyQueryInfo search current_year) claims

/-! ## Score aggregator (`MedicalReviewer.calculate_score`) -/

/-- Python `round` on a number: round to the nearest integer, ties to
the even neighbour (bankers' rounding). -/
def pyRound (q : ℚ) : ℤ :=
  if q - (⌊q⌋ : ℚ) < 1 / 2 then ⌊q⌋
  else if 1 / 2 < q - (⌊q⌋ : ℚ) then ⌊q⌋ + 1
  else if ⌊q⌋ % 2 = 0 then ⌊q⌋ else ⌊q⌋ + 1

/-- The `status_counts` and `severity_counts` dictionaries of
`calculate_score` (lines 288-298), as one record. -/
structure ScoreCounts where
  substantiated_backup : ℕ
  substantiated_pubmed : ℕ
  partially_substantiated : ℕ
  needs_pubmed_check : ℕ
  unsubstantiated : ℕ
  contradicted : ℕ
  overstated : ℕ
  critical : ℕ
  major : ℕ
  minor : ℕ
  deriving DecidableEq, Repr

def initScoreCounts : ScoreCounts :=
  ⟨0, 0, 0, 0, 0, 0, 0, 0, 0, 0⟩

/-- `if status in status_counts: status_counts[status] += 1`
(lines 301-303): only the seven enumerated statuses are counted. -/
def countStatus (acc : ScoreCounts) (status : String) : ScoreCounts :=
  if status = "SUBSTANTIATED_BACKUP" then
    { acc with substantiated_backup := acc.substantiated_backup + 1 }
  else if status = "SUBSTANTIATED_PUBMED" then
    { acc with substantiated_pubmed := acc.substantiated_pubmed + 1 }
  else if status = "PARTIALLY_SUBSTANTIATED" then
    { acc with partially_substantiated := acc.partially_substantiated + 1 }
  else if status = "NEEDS_PUBMED_CHECK" then
    { acc with needs_pubmed_check := acc.needs_pubmed_check + 1 }
  else if status = "UNSUBSTANTIATED" then
    { acc with unsubstantiated := acc.unsubstantiated + 1 }
  else if status = "CONTRADICTED" then
    { acc with contradicted := acc.contradicted + 1 }
  else if status = "OVERSTATED" then
    { acc with overstated := acc.overstated + 1 }
  else acc

/-- `if severity and severity in severity_counts: ... += 1`
(lines 305-307): a missing or empty (falsy) severity is skipped, and
only the three enumerated severities are counted. -/
def countSeverity (acc : ScoreCounts) (severity : Option String) : ScoreCounts :=
  match severity with
  | none => acc
  | some s =>
      if s = "" then acc
      else if s = "CRITICAL" then { acc with critical := acc.critical + 1 }
      else if s = "MAJOR" then { acc with major := acc.major + 1 }
      else if s = "MINOR" then { acc with minor := acc.minor + 1 }
      else acc

/-- One iteration of the counting loop of `calculate_score`
(lines 300-307). -/
def countClaim (acc : ScoreCounts) (claim : Claim) : ScoreCounts :=
  countSeverity (countStatus acc claim.evidence_status) claim.severity

/-- `MedicalReviewer.calculate_score` (lines 279-327).  `0.5` is the
exact float value `1/2`; 15, 8, 3 are the severity deductions. -/
def calculate_score (claims : List Claim) : ℤ :=
  if claims = [] then 100
  else
    let total_claims : ℕ := claims.length
    let counts := claims.foldl countClaim initScoreCounts
    let substantiated : ℕ :=
      counts.substantiated_backup + counts.substantiated_pubmed
    let partially : ℕ := counts.partially_substantiated
    let base_score : ℚ :=
      ((substantiated : ℚ) * 1 + (partially : ℚ) * (1 / 2))
        / (total_claims : ℚ) * 100
    let deductions : ℚ :=
      (counts.critical : ℚ) * 15 + (counts.major : ℚ) * 8
        + (counts.minor : ℚ) * 3
    let final_score := pyMax 0 (pyMin 100 (base_score - deductions))
    pyRound final_score

/-- §4.5 Score Aggregator written from the specification's own words:
no claims gives 100, otherwise
`clamp(base - deductions, 0, 100)` rounded, with
`base = (substantiated·1.0 + partially_substantiated·0.5)/total·100`
(substantiated summing the two SUBSTANTIATED statuses) and
`deductions = critical·15 + major·8 + minor·3`. -/
def aggregateSpec (claims : List Claim) : ℤ :=
  if claims.length = 0 then 100
  else
    let total : ℚ := claims.length
    let substantiated : ℚ :=
      claims.countP (fun c => c.evidence_status == "SUBSTANTIATED_BACKUP"
        || c.evidence_status == "SUBSTANTIATED_PUBMED")
    let partially : ℚ :=
      claims.countP (fun c => c.evidence_status == "PARTIALLY_SUBSTANTIATED")
    let critical_count : ℚ := claims.countP (fun c => c.severity == some "CRITICAL")
    let major_count : ℚ := claims.countP (fun c => c.severity == some "MAJOR")
    let minor_count : ℚ := claims.countP (fun c => c.severity == some "MINOR")
    let base := (substantiated * 1 + partially * (1 / 2)) / total * 100
    let deductions := critical_count * 15 + major_count * 8 + minor_count * 3
    pyRound (max 0 (min 100 (base - deductions)))

example :
    calculate_score
      [⟨"1", "t", "EFFICACY_CLAIM", "l", "SUBSTANTIATED_BACKUP", none, none, none, []⟩,
       ⟨"2", "t", "EFFICACY_CLAIM", "l", "UNSUBSTANTIATED", some "CRITICAL", none, none, []⟩]
      = 35 := by
  with_unfolding_all decide

example : calculate_score [] = 100 := by with_unfolding_all decide

/-! ### Aggregator lemmas -/

theorem pyRound_ge_floor (q : ℚ) : ⌊q⌋ ≤ pyRound q := by
  unfold pyRound
  split_ifs <;> omega

theorem pyRound_nonneg {q : ℚ} (h : 0 ≤ q) : 0 ≤ pyRound q := by
  have hf : (0 : ℤ) ≤ ⌊q⌋ := Int.floor_nonneg.mpr h
  have := pyRound_ge_floor q
  omega

theorem pyRound_le_of_le {q : ℚ} (h : q ≤ 100) : pyRound q ≤ 100 := by
  have hf : ⌊q⌋ ≤ 100 := by
    have := Int.floor_le_floor h
    simpa using this
  unfold pyRound
  split_ifs with h1 h2 h3
  · exact hf
  · -- `1/2 < q - ⌊q⌋`, so `⌊q⌋ + 1/2 < q ≤ 100` and `⌊q⌋ ≤ 99`
    have hq : (⌊q⌋ : ℚ) + 1 / 2 < q := by linarith
    have : (⌊q⌋ : ℚ) < 100 - 1 / 2 := by linarith
    have : (⌊q⌋ : ℚ) < 100 := by linarith
    have : ⌊q⌋ < 100 := by exact_mod_cast this
    omega
  · exact hf
  · have hq : (⌊q⌋ : ℚ) + 1 / 2 ≤ q := by linarith
    have : (⌊q⌋ : ℚ) < 100 := by linarith
    have : ⌊q⌋ < 100 := by exact_mod_cast this
    omega

set_option maxHeartbeats 4000000 in
theorem countStatus_fields (acc : ScoreCounts) (st : String) :
    countStatus acc st =
      { acc with
          substantiated_backup := acc.substantiated_backup
            + (if st = "SUBSTANTIATED_BACKUP" then 1 else 0)
          substantiated_pubmed := acc.substantiated_pubmed
            + (if st = "SUBSTANTIATED_PUBMED" then 1 else 0)
          partially_substantiated := acc.partially_substantiated
            + (if st = "PARTIALLY_SUBSTANTIATED" then 1 else 0)
          needs_pubmed_check := acc.needs_pubmed_check
            + (if st = "NEEDS_PUBMED_CHECK" then 1 else 0)
          unsubstantiated := acc.unsubstantiated
            + (if st = "UNSUBSTANTIATED" then 1 else 0)
          contradicted := acc.contradicted
            + (if st = "CONTRADICTED" then 1 else 0)
          overstated := acc.overstated
            + (if st = "OVERSTATED" then 1 else 0) } := by
  unfold countStatus
  split_ifs <;> simp_all

set_option maxHeartbeats 4000000 in
theorem countSeverity_fields (acc : ScoreCounts) (sev : Option String) :
    countSeverity acc sev =
      { acc with
          critical := acc.critical + (if sev = some "CRITICAL" then 1 else 0)
          major := acc.major + (if sev = some "MAJOR" then 1 else 0)
          minor := acc.minor + (if sev = some "MINOR" then 1 else 0) } := by
  unfold countSeverity
  rcases sev with _ | s
  · simp
  · split_ifs <;> simp_all

set_option maxHeartbeats 1600000 in
theorem countClaim_fields (acc : ScoreCounts) (c : Claim) :
    countClaim acc c =
      { substantiated_backup := acc.substantiated_backup
          + (if c.evidence_status == "SUBSTANTIATED_BACKUP" then 1 else 0)
        substantiated_pubmed := acc.substantiated_pubmed
          + (if c.evidence_status == "SUBSTANTIATED_PUBMED" then 1 else 0)
        partially_substantiated := acc.partially_substantiated
          + (if c.evidence_status == "PARTIALLY_SUBSTANTIATED" then 1 else 0)
        needs_pubmed_check := acc.needs_pubmed_check
          + (if c.evidence_status == "NEEDS_PUBMED_CHECK" then 1 else 0)
        unsubstantiated := acc.unsubstantiated
          + (if c.evidence_status == "UNSUBSTANTIATED" then 1 else 0)
        contradicted := acc.contradicted
          + (if c.evidence_status == "CONTRADICTED" then 1 else 0)
        overstated := acc.overstated
          + (if c.evidence_status == "OVERSTATED" then 1 else 0)
        critical := acc.critical + (if c.severity == some "CRITICAL" then 1 else 0)
        major := acc.major + (if c.severity == some "MAJOR" then 1 else 0)
        minor := acc.minor + (if c.severity == some "MINOR" then 1 else 0) } := by
  unfold countClaim
  rw [countStatus_fields, countSeverity_fields]
  simp [beq_iff_eq]

theorem foldl_countClaim (claims : List Claim) (acc : ScoreCounts) :
    claims.foldl countClaim acc =
      { substantiated_backup := acc.substantiated_backup
          + claims.countP (fun c => c.evidence_status == "SUBSTANTIATED_BACKUP")
        substantiated_pubmed := acc.substantiated_pubmed
          + claims.countP (fun c => c.evidence_status == "SUBSTANTIATED_PUBMED")
        partially_substantiated := acc.partially_substantiated
          + claims.countP (fun c => c.evidence_status == "PARTIALLY_SUBSTANTIATED")
        needs_pubmed_check := acc.needs_pubmed_check
          + claims.countP (fun c => c.evidence_status == "NEEDS_PUBMED_CHECK")
        unsubstantiated := acc.unsubstantiated
          + claims.countP (fun c => c.evidence_status == "UNSUBSTANTIATED")
        contradicted := acc.contradicted
          + claims.countP (fun c => c.evidence_status == "CONTRADICTED")
        overstated := acc.overstated
          + claims.countP (fun c => c.evidence_status == "OVERSTATED")
        critical := acc.critical + claims.countP (fun c => c.severity == some "CRITICAL")
        major := acc.major + claims.countP (fun c => c.severity == some "MAJOR")
        minor := acc.minor + claims.countP (fun c => c.severity == some "MINOR") } := by
  induction claims generalizing acc with
  | nil => simp
  | cons c cs ih =>
      rw [List.foldl_cons, countClaim_fields, ih]
      simp only [List.countP_cons, ScoreCounts.mk.injEq]
      refine ⟨?_, ?_, ?_, ?_, ?_, ?_, ?_, ?_, ?_, ?_⟩ <;> ac_rfl

theorem countP_substantiated_split (l : List Claim) :
    l.countP (fun c => c.evidence_status == "SUBSTANTIATED_BACKUP"
        || c.evidence_status == "SUBSTANTIATED_PUBMED")
      = l.countP (fun c => c.evidence_status == "SUBSTANTIATED_BACKUP")
        + l.countP (fun c => c.evidence_status == "SUBSTANTIATED_PUBMED") := by
  induction l with
  | nil => simp
  | cons c cs ih =>
      simp only [List.countP_cons, ih]
      by_cases h1 : c.evidence_status = "SUBSTANTIATED_BACKUP" <;>
        by_cases h2 : c.evidence_status = "SUBSTANTIATED_PUBMED" <;>
        simp_all <;> omega

theorem calculate_score_eq_aggregateSpec (claims : List Claim) :
    calculate_score claims = aggregateSpec claims := by
  unfold calculate_score aggregateSpec
  rcases h : claims with _ | ⟨c, cs⟩
  · simp
  · rw [← h]
    have hne : claims ≠ [] := by simp [h]
    have hlen : claims.length ≠ 0 := by simp [h]
    simp only [hne, hlen, if_neg, if_false]
    rw [foldl_countClaim]
    simp only [initScoreCounts, Nat.zero_add, pyMax_eq_max, pyMin_eq_min]
    congr 1
    rw [countP_substantiated_split]

theorem calculate_score_mem_Icc (claims : List Claim) :
    0 ≤ calculate_score claims ∧ calculate_score claims ≤ 100 := by
  unfold calculate_score
  rcases h : claims with _ | ⟨c, cs⟩
  · simp
  · rw [← h]
    have hne : claims ≠ [] := by simp [h]
    simp only [hne, if_neg, if_false]
    rw [pyMax_eq_max, pyMin_eq_min]
    constructor
    · exact pyRound_nonneg (le_max_left 0 _)
    · exact pyRound_le_of_le (max_le (by norm_num) (min_le_left _ _))

/-- **C5.**  The Score Aggregator returns 100 for the empty claim list
and otherwise the rounded clamp of base minus deductions exactly as the
specification's formula states it (`aggregateSpec`, written from the
spec's words, with Python's round-half-to-even); the result is always an
integer in `[0, 100]`. -/
theorem aggregator_matches_spec_and_is_bounded (claims : List Claim) :
    calculate_score claims = aggregateSpec claims
      ∧ 0 ≤ calculate_score claims
      ∧ calculate_score claims ≤ 100 :=
  ⟨calculate_score_eq_aggregateSpec claims,
   (calculate_score_mem_Icc claims).1,
   (calculate_score_mem_Icc claims).2⟩

/-! ## Resolver lemmas and concrete scenario fixtures -/

/-- Resolving a single-query list that targets the head claim with a
non-empty query applies `resolveClaim` to the head. -/
theorem process_single_eq (search : String → List Article) (cy : ℤ)
    (c : Claim) (cs : List Claim) (q : String) (hq : q ≠ "") :
    process_pubmed_queries search cy (c :: cs) [⟨some c.id, q⟩]
      = resolveClaim search cy q c :: cs := by
  unfold process_pubmed_queries applyQueryInfo updateFirst
  simp [hq, List.find?]

theorem updateFirst_getElem_of_ne (f : Claim → Claim) (cid : String)
    (l : List Claim) (c : Claim) (i : ℕ)
    (hne : c.id ≠ cid) (hi : l[i]? = some c) :
    (updateFirst f cid l)[i]? = some c := by
  induction l generalizing i with
  | nil => simp at hi
  | cons d ds ih =>
      unfold updateFirst
      by_cases hd : d.id = cid
      · cases i with
        | zero =>
            simp only [List.getElem?_cons_zero, Option.some.injEq] at hi
            exact absurd (hi ▸ hd) hne
        | succ n =>
            simp only [hd, if_pos, List.getElem?_cons_succ] at hi ⊢
            exact hi
      · cases i with
        | zero => simpa [hd] using hi
        | succ n =>
            simp only [hd, if_neg, ite_false, List.getElem?_cons_succ] at hi ⊢
            exact ih n hi

theorem applyQueryInfo_getElem_of_untargeted
    (search : String → List Article) (cy : ℤ) (claims : List Claim)
    (qi : QueryInfo) (c : Claim) (i : ℕ)
    (hnt : qi.claim_id = some c.id → qi.query = "")
    (hi : claims[i]? = some c) :
    (applyQueryInfo search cy claims qi)[i]? = some c := by
  unfold applyQueryInfo
  rcases hcid : qi.claim_id with _ | cid
  · exact hi
  · by_cases hq : qi.query = ""
    · simp [hq, hi]
    · have hne : c.id ≠ cid := by
        intro h
        exact hq (hnt (by rw [hcid, h]))
      simp only [hq, if_neg, ite_false]
      split
      · exact updateFirst_getElem_of_ne _ _ _ _ _ hne hi
      · exact hi

/-- A sample article used in the concrete scenarios. -/
def exArticle : Article :=
  { pmid := "11111"
    title := "dapagliflozin HbA1c reduction trial"
    authors := ["A Kumar"]
    journal := "Indian J Med Res"
    year := "2023"
    abstract := "dapagliflozin reduced HbA1c significantly" }

/-- A search oracle that finds exactly one article for every query. -/
def exSearchFound : String → List Article := fun _ => [exArticle]

/-- A search oracle that never finds an article. -/
def exSearchNone : String → List Article := fun _ => []

def exMinorClaim : Claim :=
  { id := "CLM-001"
    claim_text := "well tolerated"
    claim_type := "SAFETY_CLAIM"
    location := "Slide 1"
    evidence_status := "NEEDS_PUBMED_CHECK"
    severity := some "MINOR"
    backup_reference := none
    pubmed_reference := none
    issues := [] }

def exCriticalClaim : Claim :=
  { id := "CLM-002"
    claim_text := "47 percent reduction in HbA1c"
    claim_type := "EFFICACY_CLAIM"
    location := "Slide 5"
    evidence_status := "NEEDS_PUBMED_CHECK"
    severity := some "CRITICAL"
    backup_reference := none
    pubmed_reference := none
    issues := [] }

def exBackupClaim : Claim :=
  { id := "CLM-004"
    claim_text := "once daily dosing"
    claim_type := "DOSING_CLAIM"
    location := "Slide 2"
    evidence_status := "SUBSTANTIATED_BACKUP"
    severity := none
    backup_reference := some "PI.pdf p3"
    pubmed_reference := none
    issues := [] }

/-! ## C1 — found-article transition of the resolver -/

/-- **C1 counterexample.**  The claim asserts the severity is downgraded
by exactly one step on `CRITICAL → MAJOR → MINOR → none`, so a `MINOR`
claim should end with no severity.  In the code
(`medical_reviewer.py:235-239`) there is no `MINOR` branch: with an
article found, a `MINOR` claim keeps severity `MINOR`. -/
theorem minor_claim_keeps_minor_on_found_article :
    exSearchFound "well tolerated safety" ≠ []
      ∧ (process_pubmed_queries exSearchFound 2025 [exMinorClaim]
            [⟨some "CLM-001", "well tolerated safety"⟩]).map Claim.severity
          = [some "MINOR"] := by
  constructor
  · intro h
    simp [exSearchFound] at h
  · with_unfolding_all decide

/-- **C1 (amended).**  For every claim targeted by the resolver whose
search returns at least one article: `evidence_status` becomes
`SUBSTANTIATED_PUBMED`, the attached `pubmed_reference` carries the
relevance score of the selected (first) article as confidence, and the
severity steps down `CRITICAL → MAJOR`, `MAJOR → MINOR`, while a `MINOR`
claim keeps severity `MINOR` (it is not cleared). -/
theorem resolver_found_article_updates_claim
    (search : String → List Article) (cy : ℤ) (c : Claim) (cs : List Claim)
    (q : String) (a : Article) (arts : List Article)
    (hq : q ≠ "") (hs : search q = a :: arts) :
    ∃ c', process_pubmed_queries search cy (c :: cs) [⟨some c.id, q⟩] = c' :: cs
      ∧ c'.evidence_status = "SUBSTANTIATED_PUBMED"
      ∧ c'.pubmed_reference.map PubmedReference.confidence
          = some (calculate_relevance_score cy q a)
      ∧ (c.severity = some "CRITICAL" → c'.severity = some "MAJOR")
      ∧ (c.severity = some "MAJOR" → c'.severity = some "MINOR")
      ∧ (c.severity = some "MINOR" → c'.severity = some "MINOR") := by
  refine ⟨resolveClaim search cy q c, process_single_eq search cy c cs q hq, ?_, ?_, ?_, ?_, ?_⟩ <;>
    simp only [resolveClaim, hs, mkPubmedReference, Option.map_some] <;>
    try rfl
  all_goals
    intro h
    simp [downgradeSeverity, h]

theorem resolver_found_article_updates_claim_witness :
    "dapagliflozin hba1c" ≠ ""
      ∧ ∃ c', process_pubmed_queries exSearchFound 2025 [exCriticalClaim]
            [⟨some exCriticalClaim.id, "dapagliflozin hba1c"⟩] = c' :: []
          ∧ c'.evidence_status = "SUBSTANTIATED_PUBMED"
          ∧ c'.pubmed_reference.map PubmedReference.confidence
              = some (calculate_relevance_score 2025 "dapagliflozin hba1c" exArticle)
          ∧ (exCriticalClaim.severity = some "CRITICAL" → c'.severity = some "MAJOR")
          ∧ (exCriticalClaim.severity = some "MAJOR" → c'.severity = some "MINOR")
          ∧ (exCriticalClaim.severity = some "MINOR" → c'.severity = some "MINOR") :=
  ⟨by decide,
   resolver_found_article_updates_claim exSearchFound 2025 exCriticalClaim []
     "dapagliflozin hba1c" exArticle [] (by decide) rfl⟩

/-! ## C2 — which article is attached -/

def exLowArticle : Article :=
  { pmid := "22222"
    title := "unrelated topic"
    authors := []
    journal := "J"
    year := "1900"
    abstract := "nothing relevant here" }

def exHighArticle : Article :=
  { pmid := "33333"
    title := "dapagliflozin hba1c outcomes"
    authors := []
    journal := "J"
    year := "1900"
    abstract := "dapagliflozin lowered hba1c" }

/-- A search oracle returning a low-relevance article first and a
high-relevance article second. -/
def exSearchTwo : String → List Article := fun _ => [exLowArticle, exHighArticle]

/-- **C2 counterexample.**  The claim asserts the resolver selects the
article with the highest relevance score.  The code takes
`articles[0]` (`medical_reviewer.py:225`): with a higher-relevance
article in second position, the attached reference is still the first
article. -/
theorem resolver_attaches_first_not_best :
    calculate_relevance_score 2025 "dapagliflozin hba1c" exLowArticle
        < calculate_relevance_score 2025 "dapagliflozin hba1c" exHighArticle
      ∧ ((process_pubmed_queries exSearchTwo 2025 [exCriticalClaim]
            [⟨some "CLM-002", "dapagliflozin hba1c"⟩]).map
              (fun c => c.pubmed_reference.map PubmedReference.pmid))
          = [some "22222"] := by
  constructor
  · with_unfolding_all decide
  · with_unfolding_all decide

/-- **C2 (amended).**  When the search returns one or more articles, the
resolver attaches the first article of the returned sequence as
`pubmed_reference` (with that article's own relevance score as
confidence), regardless of the relevance scores of later articles. -/
theorem resolver_attaches_first_returned_article
    (search : String → List Article) (cy : ℤ) (c : Claim) (cs : List Claim)
    (q : String) (a : Article) (arts : List Article)
    (hq : q ≠ "") (hs : search q = a :: arts) :
    ∃ c', process_pubmed_queries search cy (c :: cs) [⟨some c.id, q⟩] = c' :: cs
      ∧ c'.pubmed_reference = some (mkPubmedReference cy q a)
      ∧ (mkPubmedReference cy q a).pmid = a.pmid
      ∧ (mkPubmedReference cy q a).confidence = calculate_relevance_score cy q a := by
  refine ⟨resolveClaim search cy q c, process_single_eq search cy c cs q hq, ?_, rfl, rfl⟩
  simp only [resolveClaim, hs]

theorem resolver_attaches_first_returned_article_witness :
    "dapagliflozin hba1c" ≠ ""
      ∧ ∃ c', process_pubmed_queries exSearchTwo 2025 [exCriticalClaim]
            [⟨some exCriticalClaim.id, "dapagliflozin hba1c"⟩] = c' :: []
          ∧ c'.pubmed_reference
              = some (mkPubmedReference 2025 "dapagliflozin hba1c" exLowArticle)
          ∧ (mkPubmedReference 2025 "dapagliflozin hba1c" exLowArticle).pmid
              = exLowArticle.pmid
          ∧ (mkPubmedReference 2025 "dapagliflozin hba1c" exLowArticle).confidence
              = calculate_relevance_score 2025 "dapagliflozin hba1c" exLowArticle :=
  ⟨by decide,
   resolver_attaches_first_returned_article exSearchTwo 2025 exCriticalClaim []
     "dapagliflozin hba1c" exLowArticle [exHighArticle] (by decide) rfl⟩

/-! ## C3 — frame property of the resolver -/

/-- **C3 counterexample.**  The claim asserts every claim whose status is
not `NEEDS_PUBMED_CHECK` passes through unchanged for every query set.
The code never inspects `evidence_status` when processing
`pubmed_queries_needed` (`medical_reviewer.py:203-243`): a
`SUBSTANTIATED_BACKUP` claim named by a query entry is mutated. -/
theorem backup_claim_mutated_when_targeted :
    exBackupClaim.evidence_status ≠ "NEEDS_PUBMED_CHECK"
      ∧ (process_pubmed_queries exSearchFound 2025 [exBackupClaim]
            [⟨some "CLM-004", "once daily dosing"⟩]).map Claim.evidence_status
          = ["SUBSTANTIATED_PUBMED"] := by
  constructor
  · decide
  · with_unfolding_all decide

/-- **C3 (amended).**  A claim that no pending query entry targets — no
entry carries its id together with a non-empty query string — passes
through the resolver unchanged, at its original position; the resolver
does not inspect `evidence_status`, so this is the correct frame
condition. -/
theorem untargeted_claim_passes_through_unchanged
    (search : String → List Article) (cy : ℤ)
    (claims : List Claim) (queries : List QueryInfo) (c : Claim) (i : ℕ)
    (hnt : ∀ qi ∈ queries, qi.claim_id = some c.id → qi.query = "")
    (hi : claims[i]? = some c) :
    (process_pubmed_queries search cy claims queries)[i]? = some c := by
  unfold process_pubmed_queries
  induction queries generalizing claims with
  | nil => exact hi
  | cons qi qis ih =>
      rw [List.foldl_cons]
      exact ih (applyQueryInfo search cy claims qi)
        (fun x hx => hnt x (List.mem_cons_of_mem qi hx))
        (applyQueryInfo_getElem_of_untargeted search cy claims qi c i
          (hnt qi (List.mem_cons_self qi qis)) hi)

theorem untargeted_claim_passes_through_unchanged_witness :
    (∀ qi ∈ [(⟨some "CLM-002", "dapagliflozin hba1c"⟩ : QueryInfo)],
        qi.claim_id = some exBackupClaim.id → qi.query = "")
      ∧ ([exBackupClaim, exCriticalClaim][0]? = some exBackupClaim)
      ∧ (process_pubmed_queries exSearchFound 2025 [exBackupClaim, exCriticalClaim]
          [⟨some "CLM-002", "dapagliflozin hba1c"⟩])[0]? = some exBackupClaim :=
  ⟨by decide, by decide,
   untargeted_claim_passes_through_unchanged exSearchFound 2025
     [exBackupClaim, exCriticalClaim] [⟨some "CLM-002", "dapagliflozin hba1c"⟩]
     exBackupClaim 0 (by decide) (by decide)⟩

/-! ## C4 — no-article transition of the resolver -/

/-- **C4.**  For every claim targeted by the resolver whose search
returns no articles, `evidence_status` is set to `UNSUBSTANTIATED` and
`severity` to `CRITICAL`, whatever severity the claim carried before;
all other fields are left as they were. -/
theorem resolver_no_article_forces_unsubstantiated_critical
    (search : String → List Article) (cy : ℤ) (c : Claim) (cs : List Claim)
    (q : String) (hq : q ≠ "") (hs : search q = []) :
    ∃ c', process_pubmed_queries search cy (c :: cs) [⟨some c.id, q⟩] = c' :: cs
      ∧ c'.evidence_status = "UNSUBSTANTIATED"
      ∧ c'.severity = some "CRITICAL"
      ∧ c'.claim_text = c.claim_text
      ∧ c'.pubmed_reference = c.pubmed_reference
      ∧ c'.backup_reference = c.backup_reference := by
  refine ⟨resolveClaim search cy q c, process_single_eq search cy c cs q hq, ?_, ?_, ?_, ?_, ?_⟩ <;>
    simp [resolveClaim, hs]

theorem resolver_no_article_forces_unsubstantiated_critical_witness :
    "well tolerated safety" ≠ ""
      ∧ ∃ c', process_pubmed_queries exSearchNone 2025 [exMinorClaim]
            [⟨some exMinorClaim.id, "well tolerated safety"⟩] = c' :: []
          ∧ c'.evidence_status = "UNSUBSTANTIATED"
          ∧ c'.severity = some "CRITICAL"
          ∧ c'.claim_text = exMinorClaim.claim_text
          ∧ c'.pubmed_reference = exMinorClaim.pubmed_reference
          ∧ c'.backup_reference = exMinorClaim.backup_reference :=
  ⟨by decide,
   resolver_no_article_forces_unsubstantiated_critical exSearchNone 2025
     exMinorClaim [] "well tolerated safety" (by decide) rfl⟩

/-! ## C6 and C10 — relevance scorer -/

/-- **C6.**  For every query with at least one term, the relevance score
equals
`min(1, 0.6·title_overlap + 0.4·abstract_overlap + max(0, (5 − (current_year − pub_year))·0.02))`
with the overlaps the fractions of query terms found in the lowercased
title/abstract term sets, and the value lies in `[0, 1]`. -/
theorem relevance_score_formula_and_bounds
    (cy : ℤ) (query : String) (article : Article)
    (hq : (termSet query).card ≠ 0) :
    calculate_relevance_score cy query article
      = min 1 ((6 / 10) * (((termSet query ∩ termSet article.title).card : ℚ)
              / ((termSet query).card : ℚ))
          + (4 / 10) * (((termSet query ∩ termSet article.abstract).card : ℚ)
              / ((termSet query).card : ℚ))
          + max 0 ((((5 : ℤ) - (cy - pyInt article.year cy) : ℤ) : ℚ) * (2 / 100)))
      ∧ 0 ≤ calculate_relevance_score cy query article
      ∧ calculate_relevance_score cy query article ≤ 1 := by
  have hmax : max (termSet query).card 1 = (termSet query).card :=
    Nat.max_eq_left (Nat.one_le_iff_ne_zero.mpr hq)
  have hform : calculate_relevance_score cy query article
      = min 1 ((6 / 10) * (((termSet query ∩ termSet article.title).card : ℚ)
              / ((termSet query).card : ℚ))
          + (4 / 10) * (((termSet query ∩ termSet article.abstract).card : ℚ)
              / ((termSet query).card : ℚ))
          + max 0 ((((5 : ℤ) - (cy - pyInt article.year cy) : ℤ) : ℚ) * (2 / 100))) := by
    unfold calculate_relevance_score
    rw [pyMin_eq_min, pyMax_eq_max, hmax]
    ring_nf
  refine ⟨hform, ?_, ?_⟩
  · rw [hform]
    have h1 : (0 : ℚ) ≤ ((termSet query ∩ termSet article.title).card : ℚ)
        / ((termSet query).card : ℚ) :=
      div_nonneg (by positivity) (by positivity)
    have h2 : (0 : ℚ) ≤ ((termSet query ∩ termSet article.abstract).card : ℚ)
        / ((termSet query).card : ℚ) :=
      div_nonneg (by positivity) (by positivity)
    have h3 : (0 : ℚ) ≤ max 0 ((((5 : ℤ) - (cy - pyInt article.year cy) : ℤ) : ℚ) * (2 / 100)) :=
      le_max_left 0 _
    refine le_min (by norm_num) (by linarith)
  · rw [hform]
    exact min_le_left 1 _

theorem relevance_score_formula_and_bounds_witness :
    (termSet "dapagliflozin hba1c").card ≠ 0
      ∧ (calculate_relevance_score 2025 "dapagliflozin hba1c" exHighArticle
          = min 1 ((6 / 10) * (((termSet "dapagliflozin hba1c"
                  ∩ termSet exHighArticle.title).card : ℚ)
                / ((termSet "dapagliflozin hba1c").card : ℚ))
            + (4 / 10) * (((termSet "dapagliflozin hba1c"
                  ∩ termSet exHighArticle.abstract).card : ℚ)
                / ((termSet "dapagliflozin hba1c").card : ℚ))
            + max 0 ((((5 : ℤ) - (2025 - pyInt exHighArticle.year 2025) : ℤ) : ℚ) * (2 / 100)))
        ∧ 0 ≤ calculate_relevance_score 2025 "dapagliflozin hba1c" exHighArticle
        ∧ calculate_relevance_score 2025 "dapagliflozin hba1c" exHighArticle ≤ 1) :=
  ⟨by with_unfolding_all decide,
   relevance_score_formula_and_bounds 2025 "dapagliflozin hba1c" exHighArticle
     (by with_unfolding_all decide)⟩

/-- **C10.**  For the empty query string the scorer is still total: both
overlap terms are `0` (the divisor is guarded by `max(|query|, 1)`), the
result equals `min(1, recency_boost)`, and the result is strictly
positive for an article published within the last five years. -/
theorem relevance_score_empty_query (cy : ℤ) (article : Article) :
    calculate_relevance_score cy "" article
      = min 1 (max 0 ((((5 : ℤ) - (cy - pyInt article.year cy) : ℤ) : ℚ) * (2 / 100)))
      ∧ 0 ≤ calculate_relevance_score cy "" article
      ∧ (0 : ℚ) < calculate_relevance_score 2025 "" ⟨"1", "t", [], "j", "2024", "a"⟩ := by
  have hempty : termSet "" = ∅ := by with_unfolding_all decide
  have hform : calculate_relevance_score cy "" article
      = min 1 (max 0 ((((5 : ℤ) - (cy - pyInt article.year cy) : ℤ) : ℚ) * (2 / 100))) := by
    unfold calculate_relevance_score
    rw [pyMin_eq_min, pyMax_eq_max, hempty]
    simp
  refine ⟨hform, ?_, by with_unfolding_all decide⟩
  rw [hform]
  exact le_min (by norm_num) (le_max_left 0 _)

/-! ## Literature search client (`pubmed_service.py`) with explicit
network oracles -/

/-- Failure of one external HTTP step: no response (network error),
non-2xx status (`response.raise_for_status()`), or an unparseable body
(JSON for the search step, request-level failure for the fetch step). -/
inductive FetchFailure where
  | network
  | httpStatus (code : ℕ)
  | parse
  deriving DecidableEq, Repr

/-- Oracle for the two external endpoints.  `esearch` stands for the
whole `try` block of `_search_sync` lines 57-63 (request, status check,
JSON decode and the `esearchresult.idlist` extraction); `efetch` stands
for the `try` block of `_fetch_articles` lines 87-94 (request, status
check and XML parsing). -/
structure PubMedEnv where
  esearch : String → Except FetchFailure (List String)
  efetch : List String → Except FetchFailure (List Article)

/-- `PubMedService._fetch_articles` (lines 74-94): any exception from
the fetch step is caught and yields `[]`. -/
def _fetch_articles (env : PubMedEnv) (pmids : List String) : List Article :=
  match env.efetch pmids with
  | .error _ => []
  | .ok articles => articles

/-- `PubMedService._search_sync` (lines 39-72): a search failure yields
`()`, an empty id-list yields `()`, otherwise the articles are fetched.
The return type (a plain list, not `Except`) reflects that both `try`
blocks catch every exception. -/
def _search_sync (env : PubMedEnv) (query : String) : List Article :=
  match env.esearch query with
  | .error _ => []
  | .ok pmids => if pmids = [] then [] else _fetch_articles env pmids

/-- **C8.**  Whenever the external search step or the fetch step fails
(network error, HTTP error status, parse failure), `search` returns the
empty sequence; no exception reaches the caller (the embedded function
is total into `List Article`). -/
theorem search_fails_open (env : PubMedEnv) (query : String) :
    (∀ e, env.esearch query = .error e → _search_sync env query = [])
      ∧ (∀ pmids e, env.esearch query = .ok pmids →
          env.efetch pmids = .error e → _search_sync env query = []) := by
  constructor
  · intro e he
    unfold _search_sync
    rw [he]
  · intro pmids e hs hf
    unfold _search_sync
    rw [hs]
    by_cases h : pmids = []
    · simp [h]
    · simp [h, _fetch_articles, hf]

/-- An environment whose search endpoint is down. -/
def exEnvSearchFail : PubMedEnv :=
  { esearch := fun _ => .error .network
    efetch := fun _ => .ok [exArticle] }

/-- An environment whose fetch endpoint returns an unparseable body. -/
def exEnvFetchFail : PubMedEnv :=
  { esearch := fun _ => .ok ["11111"]
    efetch := fun _ => .error .parse }

theorem search_fails_open_witness :
    _search_sync exEnvSearchFail "dapagliflozin" = []
      ∧ _search_sync exEnvFetchFail "dapagliflozin" = [] :=
  ⟨(search_fails_open exEnvSearchFail "dapagliflozin").1 .network rfl,
   (search_fails_open exEnvFetchFail "dapagliflozin").2 ["11111"] .parse rfl rfl⟩

/-! ## Untyped (JSON-level) model of Python values

`MedicalReviewer.validate_response` and `MedicalReviewer.analyze`
operate on whatever `json.loads` produced, so their embedding works on
an untyped value type with Python's error behaviour made explicit. -/

/-- A Python value as produced by `json.loads`: `None`, booleans,
numbers (int and float collapsed to `ℚ`), strings, lists, dicts. -/
inductive JValue where
  | null
  | bool (b : Bool)
  | num (q : ℚ)
  | str (s : String)
  | arr (xs : List JValue)
  | obj (fields : List (String × JValue))

mutual

/-- Python `==` (structural; booleans compare numerically with numbers,
as `True == 1` in Python).  Dict comparison is modelled field-list-wise;
the code only ever compares claim ids, which are scalars. -/
def jEq : JValue → JValue → Bool
  | .null, .null => true
  | .bool a, .bool b => a == b
  | .bool a, .num q => (if a then (1 : ℚ) else 0) == q
  | .num q, .bool b => q == (if b then (1 : ℚ) else 0)
  | .num a, .num b => a == b
  | .str a, .str b => a == b
  | .arr a, .arr b => jEqList a b
  | .obj a, .obj b => jEqFields a b
  | _, _ => false

def jEqList : List JValue → List JValue → Bool
  | [], [] => true
  | x :: xs, y :: ys => jEq x y && jEqList xs ys
  | _, _ => false

def jEqFields : List (String × JValue) → List (String × JValue) → Bool
  | [], [] => true
  | (k1, v1) :: xs, (k2, v2) :: ys => k1 == k2 && jEq v1 v2 && jEqFields xs ys
  | _, _ => false

end

/-- Python truthiness. -/
def jTruthy : JValue → Bool
  | .null => false
  | .bool b => b
  | .num q => q != 0
  | .str s => s != ""
  | .arr xs => !xs.isEmpty
  | .obj fs => !fs.isEmpty

/-- Substring test (Python `needle in haystack` on strings; the empty
needle is contained in everything). -/
def strContains (haystack needle : String) : Bool :=
  if needle = "" then true else (haystack.splitOn needle).length > 1

/-- Python `x in container`: dict-key lookup (unhashable keys raise
`TypeError`), list membership via `==`, substring test on strings
(a non-string left operand raises `TypeError`); `in` on `None`,
booleans and numbers raises `TypeError`. -/
def jContains (container x : JValue) : Except PyError Bool :=
  match container with
  | .obj fs =>
      match x with
      | .arr _ => .error .typeError
      | .obj _ => .error .typeError
      | .str s => .ok (fs.any fun kv => kv.1 == s)
      | _ => .ok false
  | .arr xs => .ok (xs.any fun v => jEq v x)
  | .str s =>
      match x with
      | .str t => .ok (strContains s t)
      | _ => .error .typeError
  | _ => .error .typeError

/-- Python `container[key]` for a string key. -/
def jGetItem (container : JValue) (key : String) : Except PyError JValue :=
  match container with
  | .obj fs =>
      match fs.find? (fun kv => kv.1 == key) with
      | some kv => .ok kv.2
      | none => .error .keyError
  | _ => .error .typeError

/-- Python `container.get(key, dflt)`: `AttributeError` unless the
receiver is a dict. -/
def jGet (container : JValue) (key : String) (dflt : JValue) :
    Except PyError JValue :=
  match container with
  | .obj fs =>
      match fs.find? (fun kv => kv.1 == key) with
      | some kv => .ok kv.2
      | none => .ok dflt
  | _ => .error .attributeError

/-- Python `for x in y`: lists yield elements, strings yield one-char
strings, dicts yield their keys; everything else raises `TypeError`. -/
def jIter : JValue → Except PyError (List JValue)
  | .arr xs => .ok xs
  | .str s => .ok (s.toList.map fun ch => .str (String.singleton ch))
  | .obj fs => .ok (fs.map fun kv => JValue.str kv.1)
  | _ => .error .typeError

/-- Python `len`. -/
def jLen : JValue → Except PyError ℕ
  | .str s => .ok s.length
  | .arr xs => .ok xs.length
  | .obj fs => .ok fs.length
  | _ => .error .typeError

/-- Numeric view used by comparisons: numbers and booleans are
comparable with numbers, nothing else is. -/
def jToNum : JValue → Option ℚ
  | .bool b => some (if b then 1 else 0)
  | .num q => some q
  | _ => none

/-- Python `a <= v` for a numeric literal `a`. -/
def jLeNum (a : ℚ) (v : JValue) : Except PyError Bool :=
  match jToNum v with
  | some q => .ok (a ≤ q)
  | none => .error .typeError

/-- Python `v <= b` for a numeric literal `b`. -/
def jNumLe (v : JValue) (b : ℚ) : Except PyError Bool :=
  match jToNum v with
  | some q => .ok (q ≤ b)
  | none => .error .typeError

/-! ## Response validator (`MedicalReviewer.validate_response`) -/

/-- Failures inside the `try` block of `validate_response`: a failed
`assert`, or any other Python exception (only the former is caught by
`except AssertionError`). -/
inductive VErr where
  | assertionError
  | py (e : PyError)

/-- `assert b` -/
def vAssert (b : Bool) : Except VErr Unit :=
  if b then .ok () else .error .assertionError

/-- Run a primitive whose exceptions are not assertion errors. -/
def vLift : Except PyError α → Except VErr α
  | .ok a => .ok a
  | .error e => .error (.py e)

def valid_statuses : List String :=
  ["SUBSTANTIATED_BACKUP", "SUBSTANTIATED_PUBMED",
   "PARTIALLY_SUBSTANTIATED", "NEEDS_PUBMED_CHECK",
   "UNSUBSTANTIATED", "CONTRADICTED", "OVERSTATED"]

def valid_claim_types : List String :=
  ["EFFICACY_CLAIM", "SAFETY_CLAIM", "COMPARATIVE_CLAIM",
   "MECHANISM_CLAIM", "STATISTICAL_CLAIM", "DOSING_CLAIM",
   "POPULATION_CLAIM", "ONSET_DURATION_CLAIM"]

/-- Membership of a value in a Python list of string literals (used for
`in valid_claim_types` / `in valid_statuses`): only equal strings
match. -/
def jMemOfStrings (v : JValue) (l : List String) : Bool :=
  match v with
  | .str s => l.contains s
  | _ => false

def jIsNull : JValue → Bool
  | .null => true
  | _ => false

/-- The per-claim asserts of the `for claim in data.get("claims", [])`
loop (`medical_reviewer.py:265-272`).  `valid_severities` contains
`None`, hence the null alternative on the last assert. -/
def validateClaims : List JValue → Except VErr Unit
  | [] => .ok ()
  | claim :: rest => do
      vAssert (← vLift (jContains claim (.str "id")))
      vAssert (← vLift (jContains claim (.str "claim_text")))
      vAssert (← vLift (jContains claim (.str "claim_type")))
      let ct ← vLift (jGetItem claim "claim_type")
      vAssert (jMemOfStrings ct valid_claim_types)
      vAssert (← vLift (jContains claim (.str "evidence_status")))
      let es ← vLift (jGetItem claim "evidence_status")
      vAssert (jMemOfStrings es valid_statuses)
      let sev ← vLift (jGet claim "severity" .null)
      vAssert (jIsNull sev || jMemOfStrings sev ["CRITICAL", "MAJOR", "MINOR"])
      validateClaims rest

/-- The `try` block of `validate_response` (lines 260-274).  The chained
comparison `0 <= data["overall_score"] <= 100` evaluates the subscript
once and short-circuits after the first comparison. -/
def validateBody (data : JValue) : Except VErr Unit := do
  vAssert (← vLift (jContains data (.str "overall_score")))
  let score ← vLift (jGetItem data "overall_score")
  let b1 ← vLift (jLeNum 0 score)
  let ok ← if b1 then vLift (jNumLe score 100) else pure false
  vAssert ok
  vAssert (← vLift (jContains data (.str "claims")))
  let claims ← vLift (jGet data "claims" (.arr []))
  let items ← vLift (jIter claims)
  validateClaims items

/-- `MedicalReviewer.validate_response` (lines 245-277): assertion
failures are caught (`except AssertionError`) and produce `False`; any
other exception — e.g. a `TypeError` from comparing a non-numeric
score — escapes to the caller, which the `Except` result records. -/
def validate_response (data : JValue) : Except PyError Bool :=
  match validateBody data with
  | .ok _ => .ok true
  | .error .assertionError => .ok false
  | .error (.py e) => .error e

/-- **C7.**  The claim says `validate_response` is total and never
raises, even on wrong field types.  The code catches only
`AssertionError`: a non-numeric `overall_score` raises `TypeError`
(first conjunct), a non-dict claim entry raises `TypeError` too (second
conjunct), while a merely-missing key is indeed caught and yields
`False` (third conjunct).  The spec's stated intent ("a failed
validation does not raise") is contradicted by the code, a slip in the
`except` clause. -/
theorem validate_response_raises_on_malformed_input :
    validate_response (.obj [("overall_score", .str "high"), ("claims", .arr [])])
        = .error .typeError
      ∧ validate_response
          (.obj [("overall_score", .num 50), ("claims", .arr [.num 3])])
          = .error .typeError
      ∧ validate_response (.obj [("overall_score", .num 50)]) = .ok false := by
  refine ⟨?_, ?_, ?_⟩ <;> rfl

/-! ## The `analyze` pipeline (`MedicalReviewer.analyze`) -/

/-- Environment of one `analyze` call: the inference-service reply (or
the exception raised obtaining it), the `json.loads` behaviour on each
input string, the literature-search oracle (total into a list, per C8),
and the clock. -/
structure AnalyzeEnv where
  modelReply : Except PyError String
  loads : String → Except String JValue
  search : JValue → List Article
  current_year : ℤ

/-- The markdown-fence stripping of `analyze` lines 125-132. -/
def stripCodeFences (s : String) : String :=
  let t := s.trim
  let t := if t.startsWith "```json" then t.drop 7 else t
  let t := if t.startsWith "```" then t.drop 3 else t
  let t := if t.endsWith "```" then t.dropRight 3 else t
  t.trim

/-- Python dict assignment `d[key] = v` on the field list: replace the
existing entry in place, or append a new one. -/
def jSetKey (fields : List (String × JValue)) (key : String) (v : JValue) :
    List (String × JValue) :=
  if fields.any (fun kv => kv.1 == key) then
    fields.map (fun kv => if kv.1 == key then (key, v) else kv)
  else fields ++ [(key, v)]

/-- Python `d[key] = v` on a value: `TypeError` unless it is a dict. -/
def jvSetItem (v : JValue) (key : String) (x : JValue) :
    Except PyError JValue :=
  match v with
  | .obj fs => .ok (.obj (jSetKey fs key x))
  | _ => .error .typeError

/-- Field lookup in a report, for stating results. -/
def jLookup (v : JValue) (key : String) : Option JValue :=
  match v with
  | .obj fs => (fs.find? (fun kv => kv.1 == key)).map Prod.snd
  | _ => none

/-- `calculate_relevance_score` as called from the resolver with the
raw query value: `query.lower()` raises `AttributeError` unless the
query is a string. -/
def jvRelevance (cy : ℤ) (query : JValue) (article : Article) :
    Except PyError ℚ :=
  match query with
  | .str s => .ok (calculate_relevance_score cy s article)
  | _ => .error .attributeError

/-- The `pubmed_reference` dict built at `medical_reviewer.py:227-234`,
as a JSON value. -/
def jvPubmedRef (confidence : ℚ) (a : Article) : JValue :=
  .obj [("pmid", .str a.pmid), ("title", .str a.title),
        ("authors", .arr (a.authors.map JValue.str)),
        ("journal", .str a.journal), ("year", .str a.year),
        ("confidence", .num confidence)]

/-- The severity step-down of lines 235-239 on an untyped claim. -/
def jvApplySeverityDowngrade (fs : List (String × JValue)) :
    List (String × JValue) :=
  let sev := ((fs.find? (fun kv => kv.1 == "severity")).map Prod.snd).getD .null
  if jEq sev (.str "CRITICAL") then jSetKey fs "severity" (.str "MAJOR")
  else if jEq sev (.str "MAJOR") then jSetKey fs "severity" (.str "MINOR")
  else fs

/-- The claim-lookup loop of lines 211-215: walk the claim list, read
`c.get("id")` (an `AttributeError` on a non-dict element), stop at the
first match. -/
def jvFindClaim : List JValue → JValue → ℕ →
    Except PyError (Option (ℕ × List (String × JValue)))
  | [], _, _ => .ok none
  | c :: cs, cid, i =>
      match c with
      | .obj fs =>
          let idv := ((fs.find? (fun kv => kv.1 == "id")).map Prod.snd).getD .null
          if jEq idv cid then .ok (some (i, fs)) else jvFindClaim cs cid (i + 1)
      | _ => .error .attributeError

/-- Write the mutated claim dict back: in Python the dict inside
`result["claims"]` is mutated through the shared reference. -/
def jvWriteClaim (result : JValue) (items : List JValue) (i : ℕ)
    (fs : List (String × JValue)) : JValue :=
  match result with
  | .obj rfields => .obj (jSetKey rfields "claims" (.arr (items.set i (.obj fs))))
  | _ => result

/-- One iteration of the `for query_info in pubmed_queries` loop
(lines 203-243), on untyped values. -/
def jvProcessQuery (env : AnalyzeEnv) (result : JValue)
    (query_info : JValue) : Except PyError JValue := do
  let claim_id ← jGet query_info "claim_id" .null
  let query ← jGet query_info "query" (.str "")
  if jTruthy query = false then return result
  let claimsV ← jGet result "claims" (.arr [])
  match claimsV with
  | .arr items =>
      match ← jvFindClaim items claim_id 0 with
      | none => return result
      | some (i, fs) =>
          match env.search query with
          | [] =>
              let fs := jSetKey fs "evidence_status" (.str "UNSUBSTANTIATED")
              let fs := jSetKey fs "severity" (.str "CRITICAL")
              return jvWriteClaim result items i fs
          | best :: _ => do
              let conf ← jvRelevance env.current_year query best
              let fs := jSetKey fs "evidence_status" (.str "SUBSTANTIATED_PUBMED")
              let fs := jSetKey fs "pubmed_reference" (jvPubmedRef conf best)
              let fs := jvApplySeverityDowngrade fs
              return jvWriteClaim result items i fs
  | other => do
      let _ ← jvFindClaim (← jIter other) claim_id 0
      return result

def jvProcessQueries (env : AnalyzeEnv) :
    JValue → List JValue → Except PyError JValue
  | result, [] => .ok result
  | result, qi :: rest => do
      jvProcessQueries env (← jvProcessQuery env result qi) rest

/-- `MedicalReviewer._process_pubmed_queries` on the untyped report:
read `pubmed_queries_needed` (an `AttributeError` on a non-dict report),
iterate it, fold the claim updates through the report. -/
def jv_process_pubmed_queries (env : AnalyzeEnv) (result : JValue) :
    Except PyError JValue := do
  let queriesV ← jGet result "pubmed_queries_needed" (.arr [])
  jvProcessQueries env result (← jIter queriesV)

/-- A status value is a usable dict key only when hashable
(a list or dict key raises `TypeError`); non-string keys never match
the string-keyed count dicts. -/
def jvHashableKey : JValue → Except PyError (Option String)
  | .arr _ => .error .typeError
  | .obj _ => .error .typeError
  | .str s => .ok (some s)
  | _ => .ok none

/-- One iteration of the counting loop of `calculate_score`
(lines 300-307) on an untyped claim. -/
def jvCountClaim (acc : ScoreCounts) (claim : JValue) :
    Except PyError ScoreCounts := do
  let status ← jGet claim "evidence_status" (.str "UNSUBSTANTIATED")
  let sk ← jvHashableKey status
  let acc := match sk with
    | some s => countStatus acc s
    | none => acc
  let sev ← jGet claim "severity" .null
  if jTruthy sev then do
    match ← jvHashableKey sev with
    | some s => return countSeverity acc (some s)
    | none => return acc
  else
    return acc

def jvCountClaims : List JValue → ScoreCounts → Except PyError ScoreCounts
  | [], acc => .ok acc
  | c :: cs, acc => do jvCountClaims cs (← jvCountClaim acc c)

/-- `calculate_score` as invoked from `analyze` on the untyped
`result.get("claims", [])` value (lines 279-327 with Python's error
behaviour). -/
def jv_calculate_score (claims : JValue) : Except PyError ℤ :=
  if jTruthy claims = false then .ok 100
  else do
  let total_claims ← jLen claims
  let items ← jIter claims
  let counts ← jvCountClaims items initScoreCounts
  let substantiated : ℕ := counts.substantiated_backup + counts.substantiated_pubmed
  let partially : ℕ := counts.partially_substantiated
  let base_score : ℚ :=
    ((substantiated : ℚ) * 1 + (partially : ℚ) * (1 / 2))
      / (total_claims : ℚ) * 100
  let deductions : ℚ :=
    (counts.critical : ℚ) * 15 + (counts.major : ℚ) * 8 + (counts.minor : ℚ) * 3
  return pyRound (pyMax 0 (pyMin 100 (base_score - deductions)))

/-- Rendering of `str(e)` for the caught exception (abstracted to the
exception kind). -/
def pyErrorMessage : PyError → String
  | .typeError => "TypeError"
  | .attributeError => "AttributeError"
  | .keyError => "KeyError"

/-- The error report of the `except json.JSONDecodeError` arm
(lines 147-157). -/
def jsonErrorReport (msg : String) (raw : String) : JValue :=
  .obj [("error", .str ("JSON parsing failed: " ++ msg)),
        ("raw_response", .str (raw.take 500)),
        ("overall_score", .num 0),
        ("summary", .obj [("total_claims", .num 0)]),
        ("claims", .arr []),
        ("pubmed_queries_needed", .arr []),
        ("backup_documents_reviewed", .arr []),
        ("recommendations",
          .obj [("immediate_actions", .arr []), ("citations_needed", .arr [])])]

/-- The error report of the generic `except Exception` arm
(lines 158-167). -/
def genericErrorReport (e : PyError) : JValue :=
  .obj [("error", .str (pyErrorMessage e)),
        ("overall_score", .num 0),
        ("summary", .obj [("total_claims", .num 0)]),
        ("claims", .arr []),
        ("pubmed_queries_needed", .arr []),
        ("backup_documents_reviewed", .arr []),
        ("recommendations",
          .obj [("immediate_actions", .arr []), ("citations_needed", .arr [])])]

/-- Last statement of the `try` block:
`result["overall_score"] = ...` (line 143); a `.error` arm is the
`except Exception` clause catching that step's exception. -/
def analyzeScored (result2 : JValue) (score : ℤ) : JValue :=
  match jvSetItem result2 "overall_score" (.num (score : ℚ)) with
  | .error e => genericErrorReport e
  | .ok final => final

/-- `calculate_score(result.get("claims", []))` on the resolved report
(line 143, right-hand side). -/
def analyzeWithClaims (result2 claimsV : JValue) : JValue :=
  match jv_calculate_score claimsV with
  | .error e => genericErrorReport e
  | .ok score => analyzeScored result2 score

/-- `result.get("claims", [])` on the resolved report. -/
def analyzeResolved (result2 : JValue) : JValue :=
  match jGet result2 "claims" (.arr []) with
  | .error e => genericErrorReport e
  | .ok claimsV => analyzeWithClaims result2 claimsV

/-- `await self._process_pubmed_queries(result)` (line 140). -/
def analyzeValidated (env : AnalyzeEnv) (result : JValue) : JValue :=
  match jv_process_pubmed_queries env result with
  | .error e => genericErrorReport e
  | .ok result2 => analyzeResolved result2

/-- The post-parse part of `analyze` (lines 136-145), starting with
`self.validate_response(result)` (line 137), whose boolean result is
discarded — only an escaping exception matters. -/
def analyzeAfterParse (env : AnalyzeEnv) (result : JValue) : JValue :=
  match validate_response result with
  | .error e => genericErrorReport e
  | .ok _ => analyzeValidated env result

/-- `analyze` once the reply text is in hand: strip fences, decode
(the `except json.JSONDecodeError` arm on failure), then process. -/
def analyzeParsed (env : AnalyzeEnv) (text : String) : JValue :=
  match env.loads (stripCodeFences text) with
  | .error msg => jsonErrorReport msg (stripCodeFences text)
  | .ok result => analyzeAfterParse env result

/-- `MedicalReviewer.analyze` (lines 121-167). -/
def analyze (env : AnalyzeEnv) : JValue :=
  match env.modelReply with
  | .error e => genericErrorReport e
  | .ok text => analyzeParsed env text

/-! ### Pipeline lemmas -/

theorem find?_replace_of_any (key : String) (v : JValue) :
    ∀ (fs : List (String × JValue)), fs.any (fun kv => kv.1 == key) = true →
      (fs.map (fun kv => if kv.1 == key then (key, v) else kv)).find?
          (fun kv => kv.1 == key) = some (key, v)
  | [], h => by simp at h
  | kv :: rest, h => by
      rw [List.map_cons]
      by_cases hk : kv.1 = key
      · have hhead : (if (kv.1 == key) = true then (key, v) else kv) = (key, v) := by
          simp [hk]
        rw [hhead]
        exact List.find?_cons_of_pos _ (by simp)
      · have hkb : (kv.1 == key) = false := beq_eq_false_iff_ne.mpr hk
        have h' : rest.any (fun kv => kv.1 == key) = true := by
          rw [List.any_cons] at h
          rcases Bool.or_eq_true_iff.mp h with h1 | h1
          · rw [hkb] at h1
            exact absurd h1 (by simp)
          · exact h1
        have hhead : (if (kv.1 == key) = true then (key, v) else kv) = kv := by
          simp [hkb]
        rw [hhead, List.find?_cons_of_neg _ (by simp [hkb])]
        exact find?_replace_of_any key v rest h'

theorem find?_append_of_none (key : String) (v : JValue) :
    ∀ (fs : List (String × JValue)), fs.any (fun kv => kv.1 == key) = false →
      (fs ++ [(key, v)]).find? (fun kv => kv.1 == key) = some (key, v)
  | [], _ => by simp [List.find?]
  | kv :: rest, h => by
      rw [List.any_cons, Bool.or_eq_false_iff] at h
      rw [List.cons_append, List.find?_cons_of_neg _ (by simp [h.1])]
      exact find?_append_of_none key v rest h.2

/-- Assigning a key and then looking it up yields the assigned value. -/
theorem jSetKey_lookup (fs : List (String × JValue)) (key : String) (v : JValue) :
    jLookup (.obj (jSetKey fs key v)) key = some v := by
  show ((jSetKey fs key v).find? (fun kv => kv.1 == key)).map Prod.snd = some v
  unfold jSetKey
  by_cases h : fs.any (fun kv => kv.1 == key)
  · rw [if_pos h, find?_replace_of_any key v fs h]
    rfl
  · rw [if_neg h, find?_append_of_none key v fs (Bool.eq_false_iff.mpr h)]
    rfl

theorem jvSetItem_ok {v final : JValue} {key : String} {x : JValue}
    (h : jvSetItem v key x = .ok final) :
    ∃ fs, v = .obj fs ∧ final = .obj (jSetKey fs key x) := by
  cases v <;> simp [jvSetItem] at h
  case obj fs => exact ⟨fs, rfl, h.symm⟩

theorem pyRound_clamp_bounds (x : ℚ) :
    0 ≤ pyRound (pyMax 0 (pyMin 100 x))
      ∧ pyRound (pyMax 0 (pyMin 100 x)) ≤ 100 := by
  rw [pyMax_eq_max, pyMin_eq_min]
  exact ⟨pyRound_nonneg (le_max_left 0 _),
    pyRound_le_of_le (max_le (by norm_num) (min_le_left _ _))⟩

/-- Whatever the untyped claim list looks like, a successful score is an
integer in `[0, 100]`. -/
theorem jv_calculate_score_bounds (claims : JValue) (k : ℤ)
    (h : jv_calculate_score claims = .ok k) : 0 ≤ k ∧ k ≤ 100 := by
  unfold jv_calculate_score at h
  by_cases ht : jTruthy claims = false
  · rw [if_pos ht] at h
    simp only [Except.ok.injEq] at h
    omega
  · rw [if_neg ht] at h
    simp only [bind, Except.bind] at h
    cases h1 : jLen claims with
    | error e => simp [h1] at h
    | ok total =>
        simp only [h1] at h
        cases h2 : jIter claims with
        | error e => simp [h2] at h
        | ok items =>
            simp only [h2] at h
            cases h3 : jvCountClaims items initScoreCounts with
            | error e => simp [h3] at h
            | ok counts =>
                simp only [h3, pure, Except.pure, Except.ok.injEq] at h
                rw [← h]
                exact pyRound_clamp_bounds _

theorem genericErrorReport_score (e : PyError) :
    jLookup (genericErrorReport e) "overall_score" = some (.num 0) := rfl

theorem jsonErrorReport_score (msg raw : String) :
    jLookup (jsonErrorReport msg raw) "overall_score" = some (.num 0) := rfl

theorem analyzeScored_shape (result2 : JValue) (score : ℤ) :
    (∃ e, analyzeScored result2 score = genericErrorReport e)
      ∨ (∃ fs2, analyzeScored result2 score
          = .obj (jSetKey fs2 "overall_score" (.num (score : ℚ)))) := by
  unfold analyzeScored
  cases hset : jvSetItem result2 "overall_score" (.num (score : ℚ)) with
  | error e => exact Or.inl ⟨e, rfl⟩
  | ok final =>
      obtain ⟨fs2, _, hfin⟩ := jvSetItem_ok hset
      exact Or.inr ⟨fs2, hfin⟩

theorem analyzeWithClaims_shape (result2 claimsV : JValue) :
    (∃ e, analyzeWithClaims result2 claimsV = genericErrorReport e)
      ∨ (∃ score fs2, jv_calculate_score claimsV = .ok score
          ∧ analyzeWithClaims result2 claimsV
              = .obj (jSetKey fs2 "overall_score" (.num (score : ℚ)))) := by
  unfold analyzeWithClaims
  cases hs : jv_calculate_score claimsV with
  | error e => exact Or.inl ⟨e, rfl⟩
  | ok score =>
      rcases analyzeScored_shape result2 score with ⟨e, he⟩ | ⟨fs2, he⟩
      · exact Or.inl ⟨e, he⟩
      · exact Or.inr ⟨score, fs2, rfl, he⟩

theorem analyzeResolved_shape (result2 : JValue) :
    (∃ e, analyzeResolved result2 = genericErrorReport e)
      ∨ (∃ claimsV score fs2, jv_calculate_score claimsV = .ok score
          ∧ analyzeResolved result2
              = .obj (jSetKey fs2 "overall_score" (.num (score : ℚ)))) := by
  unfold analyzeResolved
  cases jGet result2 "claims" (.arr []) with
  | error e => exact Or.inl ⟨e, rfl⟩
  | ok claimsV =>
      rcases analyzeWithClaims_shape result2 claimsV with ⟨e, he⟩ | ⟨score, fs2, hs, he⟩
      · exact Or.inl ⟨e, he⟩
      · exact Or.inr ⟨claimsV, score, fs2, hs, he⟩

theorem analyzeValidated_shape (env : AnalyzeEnv) (result : JValue) :
    (∃ e, analyzeValidated env result = genericErrorReport e)
      ∨ (∃ claimsV score fs2, jv_calculate_score claimsV = .ok score
          ∧ analyzeValidated env result
              = .obj (jSetKey fs2 "overall_score" (.num (score : ℚ)))) := by
  unfold analyzeValidated
  cases jv_process_pubmed_queries env result with
  | error e => exact Or.inl ⟨e, rfl⟩
  | ok result2 =>
      rcases analyzeResolved_shape result2 with ⟨e, he⟩ | ⟨claimsV, score, fs2, hs, he⟩
      · exact Or.inl ⟨e, he⟩
      · exact Or.inr ⟨claimsV, score, fs2, hs, he⟩

theorem analyzeAfterParse_shape (env : AnalyzeEnv) (result : JValue) :
    (∃ e, analyzeAfterParse env result = genericErrorReport e)
      ∨ (∃ claimsV score fs2, jv_calculate_score claimsV = .ok score
          ∧ analyzeAfterParse env result
              = .obj (jSetKey fs2 "overall_score" (.num (score : ℚ)))) := by
  unfold analyzeAfterParse
  cases validate_response result with
  | error e => exact Or.inl ⟨e, rfl⟩
  | ok b =>
      rcases analyzeValidated_shape env result with ⟨e, he⟩ | ⟨claimsV, score, fs2, hs, he⟩
      · exact Or.inl ⟨e, he⟩
      · exact Or.inr ⟨claimsV, score, fs2, hs, he⟩

theorem analyzeParsed_shape (env : AnalyzeEnv) (text : String) :
    (∃ e, analyzeParsed env text = genericErrorReport e)
      ∨ (∃ msg raw, analyzeParsed env text = jsonErrorReport msg raw)
      ∨ (∃ claimsV score fs2, jv_calculate_score claimsV = .ok score
          ∧ analyzeParsed env text
              = .obj (jSetKey fs2 "overall_score" (.num (score : ℚ)))) := by
  unfold analyzeParsed
  cases env.loads (stripCodeFences text) with
  | error msg => exact Or.inr (Or.inl ⟨msg, stripCodeFences text, rfl⟩)
  | ok result =>
      rcases analyzeAfterParse_shape env result with ⟨e, he⟩ | ⟨claimsV, score, fs2, hs, he⟩
      · exact Or.inl ⟨e, he⟩
      · exact Or.inr (Or.inr ⟨claimsV, score, fs2, hs, he⟩)

/-- `analyze` can only produce one of three shapes: the generic error
report, the JSON-decode error report, or the parsed report with its
`overall_score` overwritten by a successfully computed score. -/
theorem analyze_shape (env : AnalyzeEnv) :
    (∃ e, analyze env = genericErrorReport e)
      ∨ (∃ msg raw, analyze env = jsonErrorReport msg raw)
      ∨ (∃ claimsV score fs2, jv_calculate_score claimsV = .ok score
          ∧ analyze env = .obj (jSetKey fs2 "overall_score" (.num (score : ℚ)))) := by
  cases hr : env.modelReply with
  | error e =>
      have he : analyze env = genericErrorReport e := by
        unfold analyze
        rw [hr]
      exact Or.inl ⟨e, he⟩
  | ok text =>
      have he : analyze env = analyzeParsed env text := by
        unfold analyze
        rw [hr]
      rw [he]
      exact analyzeParsed_shape env text

/-- Every path of `analyze` ends in a dict report whose
`overall_score` is an integer in `[0, 100]`. -/
theorem analyze_wellformed (env : AnalyzeEnv) :
    ∃ fields k, analyze env = JValue.obj fields
      ∧ jLookup (analyze env) "overall_score" = some (.num ((k : ℤ) : ℚ))
      ∧ 0 ≤ k ∧ k ≤ 100 := by
  rcases analyze_shape env with ⟨e, he⟩ | ⟨msg, raw, he⟩ | ⟨claimsV, score, fs2, hs, he⟩
  · refine ⟨_, 0, he, ?_, by norm_num, by norm_num⟩
    rw [he, Int.cast_zero]
    exact genericErrorReport_score e
  · refine ⟨_, 0, he, ?_, by norm_num, by norm_num⟩
    rw [he, Int.cast_zero]
    exact jsonErrorReport_score msg raw
  · refine ⟨jSetKey fs2 "overall_score" (.num (score : ℚ)), score, he, ?_,
      (jv_calculate_score_bounds claimsV score hs).1,
      (jv_calculate_score_bounds claimsV score hs).2⟩
    rw [he]
    exact jSetKey_lookup fs2 "overall_score" (.num (score : ℚ))

/-- **C9.**  When the inference-service reply is not valid JSON,
`analyze` returns (never raises) the explicit error report: score 0,
empty claim list, diagnostic message.  More generally (last conjunct),
every path of `analyze` — including every failing step after a
successful parse — yields a dict report with an integral
`overall_score` in `[0, 100]`. -/
theorem analyze_json_failure_and_totality
    (env : AnalyzeEnv) (text msg : String)
    (hr : env.modelReply = .ok text)
    (hp : env.loads (stripCodeFences text) = .error msg) :
    analyze env = jsonErrorReport msg (stripCodeFences text)
      ∧ jLookup (analyze env) "overall_score" = some (.num 0)
      ∧ jLookup (analyze env) "claims" = some (.arr [])
      ∧ jLookup (analyze env) "error"
          = some (.str ("JSON parsing failed: " ++ msg))
      ∧ ∀ env2 : AnalyzeEnv, ∃ fields k, analyze env2 = JValue.obj fields
          ∧ jLookup (analyze env2) "overall_score" = some (.num ((k : ℤ) : ℚ))
          ∧ 0 ≤ k ∧ k ≤ 100 := by
  have he : analyze env = jsonErrorReport msg (stripCodeFences text) := by
    unfold analyze
    rw [hr]
    show analyzeParsed env text = jsonErrorReport msg (stripCodeFences text)
    unfold analyzeParsed
    rw [hp]
  refine ⟨he, ?_, ?_, ?_, fun env2 => analyze_wellformed env2⟩
  · rw [he]
    exact jsonErrorReport_score msg (stripCodeFences text)
  · rw [he]
    rfl
  · rw [he]
    rfl

/-- An environment whose inference service replies with plain prose the
JSON decoder rejects. -/
def exAnalyzeEnvBadJson : AnalyzeEnv :=
  { modelReply := .ok "I could not produce the report"
    loads := fun _ => .error "Expecting value: line 1 column 1 (char 0)"
    search := fun _ => []
    current_year := 2025 }

theorem analyze_json_failure_and_totality_witness :
    exAnalyzeEnvBadJson.modelReply = .ok "I could not produce the report"
      ∧ exAnalyzeEnvBadJson.loads
          (stripCodeFences "I could not produce the report")
          = .error "Expecting value: line 1 column 1 (char 0)"
      ∧ (analyze exAnalyzeEnvBadJson
            = jsonErrorReport "Expecting value: line 1 column 1 (char 0)"
                (stripCodeFences "I could not produce the report")
          ∧ jLookup (analyze exAnalyzeEnvBadJson) "overall_score"
              = some (.num 0)
          ∧ jLookup (analyze exAnalyzeEnvBadJson) "claims" = some (.arr [])
          ∧ jLookup (analyze exAnalyzeEnvBadJson) "error"
              = some (.str ("JSON parsing failed: "
                  ++ "Expecting value: line 1 column 1 (char 0)"))
          ∧ ∀ env2 : AnalyzeEnv, ∃ fields k, analyze env2 = JValue.obj fields
              ∧ jLookup (analyze env2) "overall_score" = some (.num ((k : ℤ) : ℚ))
              ∧ 0 ≤ k ∧ k ≤ 100) :=
  ⟨rfl, rfl,
   analyze_json_failure_and_totality exAnalyzeEnvBadJson
     "I could not produce the report"
     "Expecting value: line 1 column 1 (char 0)" rfl rfl⟩

end MedReview
